import Mathlib

/-!
Verification of the dialogue-management core of the repository.

The definitions below are a shallow embedding of the Python source:
  - rasa/core/policies/rule_policy.py  (rule matching and the rule policy)
  - rasa/core/policies/form_policy.py  (only used for context)
  - rasa/core/processor.py             (execution loop, session handling,
                                        action running, follow-up actions)
  - rasa/core/domain.py                (intent/entity filtering, action index)

Python dicts are embedded as association lists, Python sets as lists whose
order models the set's (implementation-defined) iteration order, machine
floats that only ever get compared are embedded as rationals, and raising
code is embedded with Except.  Definitions whose doc comment starts with
"Modelled from the spec:" embed parts of the repository that are not under
src/ (the tracker accessors and constants); everything else is translated
from the source files named above.
-/

namespace Rasa

/- ===== Constants =====
   Modelled from the spec: the reserved action and intent names of
   rasa/core/actions/action.py and rasa/core/constants.py (not under src/;
   their literal values are fixed strings used throughout the sources). -/

def ACTION_LISTEN_NAME : String := "action_listen"

def ACTION_RESTART_NAME : String := "action_restart"

def ACTION_BACK_NAME : String := "action_back"

def ACTION_SESSION_START_NAME : String := "action_session_start"

def ACTION_DEFAULT_FALLBACK_NAME : String := "action_default_fallback"

def RULE_SNIPPET_ACTION_NAME : String := "..."

def USER_INTENT_RESTART : String := "restart"

def USER_INTENT_BACK : String := "back"

def USER_INTENT_SESSION_START : String := "session_start"

def SHOULD_NOT_BE_SET : String := "should_not_be_set"

def PREVIOUS_ACTION : String := "prev_action"

def ACTIVE_LOOP : String := "active_loop"

def LOOP_NAME : String := "name"

def ACTION_NAME : String := "action_name"

/-- rule_policy.py: marker value of the loop-unhappy-path lookup. -/
def DO_NOT_VALIDATE_LOOP : String := "do_not_validate_loop"

/-- rule_policy.py: marker value of the loop-unhappy-path lookup. -/
def DO_NOT_PREDICT_LOOP_ACTION : String := "do_not_predict_loop_action"

/-- rule_policy.py DEFAULT_ACTION_MAPPINGS: default intents mapped to the
default action they trigger (dict.get returns none for other intents). -/
def DEFAULT_ACTION_MAPPINGS (intentName : Option String) : Option String :=
  match intentName with
  | none => none
  | some i =>
    if i = USER_INTENT_RESTART then some ACTION_RESTART_NAME
    else if i = USER_INTENT_BACK then some ACTION_BACK_NAME
    else if i = USER_INTENT_SESSION_START then some ACTION_SESSION_START_NAME
    else none

/- ===== Values, sub-states and states (rasa/core/domain.py State) ===== -/

/-- A primitive JSON value appearing inside a tuple/list of a sub-state
(entity names are strings, slot feature components are numbers). -/
inductive PyPrim where
  | pstr (s : String)
  | pint (n : Int)
  deriving DecidableEq, Repr

/-- A value of a sub-state field: a string (intent name, action name, loop
name or the must-be-unset sentinel), a number, or a tuple of primitives
(entities, slot features).  json dumps tuples as lists and loads them back
as lists; rule_policy.py converts them back to tuples before comparing, so
a single constructor covers both. -/
inductive PyVal where
  | vstr (s : String)
  | vint (n : Int)
  | vtup (l : List PyPrim)
  deriving DecidableEq, Repr

/-- Python truthiness of a sub-state value ("" , 0 and () are falsy). -/
def PyVal.truthy : PyVal → Bool
  | PyVal.vstr s => decide (s ≠ "")
  | PyVal.vint n => decide (n ≠ 0)
  | PyVal.vtup l => decide (l ≠ [])

/-- Python truthiness of dict.get(key): None (absent) is falsy. -/
def optTruthy : Option PyVal → Bool
  | none => false
  | some v => v.truthy

/-- A sub-state (user / slots / prev_action / active_loop): a Python dict
from field name to value, embedded as an association list with the dict's
(unique) keys. -/
abbrev SubState := List (String × PyVal)

/-- dict.get(key) on a sub-state. -/
def SubState.get (s : SubState) (k : String) : Option PyVal :=
  (s.find? (fun p => decide (p.1 = k))).map (fun p => p.2)

/-- A turn state: a Python dict from sub-state name to sub-state. -/
abbrev State := List (String × SubState)

/-- dict.get(state_type) on a state. -/
def State.get (s : State) (k : String) : Option SubState :=
  (s.find? (fun p => decide (p.1 = k))).map (fun p => p.2)

/-- Python "not state" for a dict: empty. -/
def State.isEmptyDict (s : State) : Bool := s.isEmpty

instance : DecidableEq SubState := inferInstance

instance : DecidableEq State := inferInstance

instance : DecidableEq (List State) := inferInstance

instance : DecidableEq (List State × String) := inferInstance

/- ===== Canonical serialization (json.dumps with sort_keys=True) =====
   rule_policy.py serializes a list of states with json.dumps(new_states,
   sort_keys=True); only the length of the resulting string is consumed at
   prediction time (max(rule_keys, key=len)).  The printer below produces
   the canonical form: keys sorted, separators ", " and ": ". -/

/-- Insert into a list sorted by the given boolean order (used for
json.dumps sort_keys and for the sorted() builtin). -/
def insertionInsert (le : α → α → Bool) (x : α) : List α → List α
  | [] => [x]
  | y :: ys => if le x y then x :: y :: ys else y :: insertionInsert le x ys

/-- Sort a list by the given boolean order. -/
def insertionSort (le : α → α → Bool) : List α → List α
  | [] => []
  | x :: xs => insertionInsert le x (insertionSort le xs)

def PyPrim.ser : PyPrim → String
  | PyPrim.pstr s => "\"" ++ s ++ "\""
  | PyPrim.pint n => toString n

def PyVal.ser : PyVal → String
  | PyVal.vstr s => "\"" ++ s ++ "\""
  | PyVal.vint n => toString n
  | PyVal.vtup l => "[" ++ String.intercalate ", " (l.map PyPrim.ser) ++ "]"

def SubState.ser (s : SubState) : String :=
  "\x7b" ++
    String.intercalate ", "
      ((insertionSort (fun a b => decide (a.1 ≤ b.1)) s).map
        (fun p => "\"" ++ p.1 ++ "\": " ++ p.2.ser)) ++
  "\x7d"

def State.ser (s : State) : String :=
  "\x7b" ++
    String.intercalate ", "
      ((insertionSort (fun a b => decide (a.1 ≤ b.1)) s).map
        (fun p => "\"" ++ p.1 ++ "\": " ++ SubState.ser p.2)) ++
  "\x7d"

/-- json.dumps(states, sort_keys=True) for a list of turn states, the form
of a rule key in the lookup table. -/
def serializeStates (states : List State) : String :=
  "[" ++ String.intercalate ", " (states.map State.ser) ++ "]"

/-- len(rule_key) of the serialized key, the quantity maximised by
RulePolicy._find_action_from_rules. -/
def keyLen (states : List State) : Nat := (serializeStates states).length

/- ===== Rule matching (RulePolicy) ===== -/

/-- The body of the mismatch test of RulePolicy._does_rule_match_state for
one field: the rule value must be set and equal, or must-be-unset and the
conversation value falsy. -/
def fieldMismatch (convSub : SubState) (key : String) (value : PyVal) : Bool :=
  (value.truthy && !(decide (value = PyVal.vstr SHOULD_NOT_BE_SET)) &&
    !(decide (SubState.get convSub key = some value)))
  ||
  ((decide (value = PyVal.vstr SHOULD_NOT_BE_SET)) &&
    optTruthy (SubState.get convSub key))

/-- RulePolicy._does_rule_match_state: every field of every sub-state of
the rule turn must not mismatch the conversation turn. -/
def does_rule_match_state (rule_state conversation_state : State) : Bool :=
  rule_state.all (fun p =>
    let convSub := (State.get conversation_state p.1).getD []
    p.2.all (fun kv => !(fieldMismatch convSub kv.1 kv.2)))

/-- RulePolicy._is_rule_applicable: the rule (its turns reversed, most
recent first) is satisfied at the given turn index by the given
conversation turn. -/
def is_rule_applicable (rule_states : List State) (turn_index : Nat)
    (conversation_state : State) : Bool :=
  match (rule_states.reverse).get? turn_index with
  | none => true
  | some rs =>
    (rs.isEmptyDict && conversation_state.isEmptyDict) ||
    (!rs.isEmptyDict && !conversation_state.isEmptyDict &&
      does_rule_match_state rs conversation_state)

/-- A lookup table entry: the rule key (kept in parsed form; the serialized
form is recovered by serializeStates) together with its action.  A list of
entries models a Python dict with unique keys; the order of the list models
the iteration order of set(lookup.keys()), which Python does not tie to the
dict's insertion order. -/
abbrev Lookup := List (List State × String)

/-- RulePolicy._get_possible_keys, inner loop: for i, state in
enumerate(reversed(states)) filter the surviving keys. -/
def get_possible_keys_aux : Nat → List State → Lookup → Lookup
  | _, [], keys => keys
  | i, st :: rest, keys =>
    get_possible_keys_aux (i + 1) rest
      (keys.filter (fun p => is_rule_applicable p.1 i st))

/-- RulePolicy._get_possible_keys: the keys of the lookup that are
applicable at every turn of the (reversed) conversation history. -/
def get_possible_keys (lookup : Lookup) (states : List State) : Lookup :=
  get_possible_keys_aux 0 states.reverse lookup

/-- Python max(xs, key=f): the first element of maximal f in iteration
order (a later element replaces the current best only if strictly
greater). -/
def pymaxBy (f : α → Nat) : List α → Option α
  | [] => none
  | x :: xs => some (xs.foldl (fun best y => if f best < f y then y else best) x)

/-- Modelled from the spec: trackers.get_active_loop_name on a turn state
(trackers.py is not under src/).  Returns the active-loop name of the
state, treating a missing or empty active_loop sub-state and the
must-be-unset sentinel as no loop, per the sentinel semantics of the spec
and the analogous FormPolicy._get_active_form_name. -/
def stateActiveLoopName (st : State) : Option PyVal :=
  let al := (State.get st ACTIVE_LOOP).getD []
  if al.isEmpty then none
  else
    match SubState.get al LOOP_NAME with
    | none => none
    | some v => if v = PyVal.vstr SHOULD_NOT_BE_SET then none else some v

/-- RulePolicy._find_action_from_rules, with the tracker featurization
passed in as the prepared list of turn states.  Returns the predicted
action name (none when no rule applies or prediction was suppressed) and
whether a FormValidation(False) event is appended to the tracker.  The
rules and unhappy lists model the two lookup dicts; their order models the
iteration order of the Python sets of keys built inside the function. -/
def find_action_from_rules (rules unhappy : Lookup)
    (active_loop_name : Option String) (states : List State) :
    Option String × Bool :=
  let rule_keys := get_possible_keys rules states
  let best := pymaxBy (fun p => keyLen p.1) rule_keys
  let predicted : Option String := best.map (fun p => p.2)
  match active_loop_name with
  | none => (predicted, false)
  | some loopName =>
    let loop_unhappy_keys := get_possible_keys unhappy states
    let unhappy_path_conditions := loop_unhappy_keys.map (fun p => p.2)
    let predicted_listen_from_general_rule :=
      decide (predicted = some ACTION_LISTEN_NAME) &&
        !(optTruthy (stateActiveLoopName
            (((best.map (fun p => p.1)).getD []).getLast?.getD [])))
    if predicted_listen_from_general_rule &&
        !(unhappy_path_conditions.contains DO_NOT_PREDICT_LOOP_ACTION) then
      (some loopName, false)
    else
      let predicted2 :=
        if predicted_listen_from_general_rule then none else predicted
      (predicted2, unhappy_path_conditions.contains DO_NOT_VALIDATE_LOOP)

/- ===== Events and the conversation tracker ===== -/

/-- Modelled from the spec: the latest user message held by the tracker
(trackers.py is not under src/) - the resolved intent name (none for the
empty initial message or an unresolved intent) and the event timestamp. -/
structure UserMsg where
  intentName : Option String
  timestamp : Rat
  deriving DecidableEq, Repr

/-- The event variants of the spec's data model that the embedded code
reads or produces (events.py is not under src/; variants and their payloads
follow the spec and the uses in processor.py and rule_policy.py). -/
inductive Event where
  | userUttered (intentName : Option String) (timestamp : Rat)
  | botUttered
  | actionExecuted (name : String)
  | actionExecutionRejected (name : String)
  | slotSet (key : String)
  | activeLoopChanged (name : Option String)
  | sessionStarted
  | restarted
  | formValidation (validate : Bool)
  deriving DecidableEq, Repr

/-- Modelled from the spec: the conversation tracker - the ordered event
log plus the projection fields that the embedded code reads (trackers.py is
not under src/; the fields follow the spec's data model section and the
accessors used by processor.py, rule_policy.py and form_policy.py).  The
states field is the featurizer's turn-state projection of the history,
carried as data because the featurizer is out of the specified scope. -/
structure Tracker where
  events : List Event
  paused : Bool
  latest_message : Option UserMsg
  latest_action_name : Option String
  active_loop_name : Option String
  active_loop_rejected : Bool
  followup_action : Option String
  states : List State
  deriving DecidableEq, Repr

/-- Modelled from the spec: tracker.update(event) appends the event to the
log and folds it into the projection by its type-specific rule. -/
def Tracker.update (t : Tracker) (e : Event) : Tracker :=
  let t2 : Tracker := { t with events := t.events ++ [e] }
  match e with
  | Event.actionExecuted name => { t2 with latest_action_name := some name }
  | Event.userUttered i ts => { t2 with latest_message := some ⟨i, ts⟩ }
  | Event.actionExecutionRejected _ => { t2 with active_loop_rejected := true }
  | Event.activeLoopChanged n =>
    { t2 with active_loop_name := n, active_loop_rejected := false }
  | _ => t2

/-- Modelled from the spec: events_since_last_restart - the suffix of the
event log after the most recent restart/session-start marker. -/
def isSessionBoundary : Event → Bool
  | Event.restarted => true
  | Event.sessionStarted => true
  | _ => false

/-- Modelled from the spec: the events after the most recent
restart/session-start marker (the whole log when there is none). -/
def eventsAfterLastRestart (evs : List Event) : List Event :=
  evs.foldl (fun acc e => if isSessionBoundary e then [] else acc ++ [e]) []

/-- Modelled from the spec: tracker.applied_events(). -/
def Tracker.appliedEvents (t : Tracker) : List Event :=
  eventsAfterLastRestart t.events

/-- Modelled from the spec: tracker.get_last_event_for(UserUttered) - the
timestamp of the most recent user utterance among the applied events. -/
def lastUserUtteredTimestamp (t : Tracker) : Option Rat :=
  t.appliedEvents.reverse.findSome? (fun e =>
    match e with
    | Event.userUttered _ ts => some ts
    | _ => none)

/-- tracker.latest_message.intent.get(INTENT_NAME_KEY): the intent name of
the latest message, none when the message is empty. -/
def latest_message_intent_name (t : Tracker) : Option String :=
  t.latest_message.bind (fun m => m.intentName)

/- ===== RulePolicy prediction (rule_policy.py) ===== -/

/-- RulePolicy._find_action_from_default_actions: when the last action was
action_listen and there is a user message, map a default intent
(restart/back/session_start) to its default action. -/
def find_action_from_default_actions (t : Tracker) : Option String :=
  if !(decide (t.latest_action_name = some ACTION_LISTEN_NAME)) ||
      t.latest_message.isNone then
    none
  else
    DEFAULT_ACTION_MAPPINGS (latest_message_intent_name t)

/-- RulePolicy._find_action_from_loop_happy_path: force the unrejected
active loop, or action_listen right after the loop ran. -/
def find_action_from_loop_happy_path (t : Tracker) : Option String :=
  match t.active_loop_name with
  | none => none
  | some loopName =>
    let should_predict_loop :=
      !t.active_loop_rejected &&
        !(decide (t.latest_action_name = some loopName))
    let should_predict_listen :=
      !t.active_loop_rejected &&
        decide (t.latest_action_name = some loopName)
    if should_predict_loop then some loopName
    else if should_predict_listen then some ACTION_LISTEN_NAME
    else none

/-- RulePolicy.predict_action_probabilities at the level of the forced
action: default actions first, then the loop happy path, then the rule
lookup; none means the default prediction vector (the core-fallback
confidence) is returned instead of a forced action. -/
def rule_policy_predicted_action (rules unhappy : Lookup) (t : Tracker) :
    Option String :=
  match find_action_from_default_actions t with
  | some a => some a
  | none =>
    match find_action_from_loop_happy_path t with
    | some a => some a
    | none => (find_action_from_rules rules unhappy t.active_loop_name t.states).1

/-- RulePolicy.predict_action_probabilities together with its effect on the
tracker: _find_action_from_rules appends a FormValidation(False) event when
the loop-unhappy-path lookup demands it. -/
def rule_policy_predict_with_tracker (rules unhappy : Lookup) (t : Tracker) :
    Option String × Tracker :=
  match find_action_from_default_actions t with
  | some a => (some a, t)
  | none =>
    match find_action_from_loop_happy_path t with
    | some a => (some a, t)
    | none =>
      let r := find_action_from_rules rules unhappy t.active_loop_name t.states
      (r.1, if r.2 then t.update (Event.formValidation false) else t)

/- ===== Execution loop (processor.py) ===== -/

/-- MessageProcessor._should_handle_message: not paused, or the latest
message's intent is the restart intent. -/
def should_handle_message (t : Tracker) : Bool :=
  !t.paused || decide (latest_message_intent_name t = some USER_INTENT_RESTART)

/-- MessageProcessor.should_predict_another_action: false exactly for
action_listen and action_session_start. -/
def should_predict_another_action (action_name : String) : Bool :=
  !(decide (action_name = ACTION_LISTEN_NAME)) &&
    !(decide (action_name = ACTION_SESSION_START_NAME))

/-- MessageProcessor.is_action_limit_reached. -/
def is_action_limit_reached (max_number_of_predictions num_predicted_actions : Nat)
    (should_predict_another : Bool) : Bool :=
  decide (max_number_of_predictions ≤ num_predicted_actions) &&
    should_predict_another

/-- The outcome of the external action run consumed by
MessageProcessor._run_action: a list of produced events, an
ActionExecutionRejection, or a generic exception. -/
inductive ActionResult where
  | success (events : List Event)
  | rejection
  | failure
  deriving DecidableEq, Repr

/-- MessageProcessor._log_action_on_tracker: log the ActionExecuted event
and fold the action's events into the tracker (their timestamps are
reassigned to the current time, which the embedding does not track). -/
def log_action_on_tracker (t : Tracker) (action_name : String)
    (events : List Event) : Tracker :=
  events.foldl Tracker.update (t.update (Event.actionExecuted action_name))

/-- MessageProcessor._run_action: on rejection an ActionExecutionRejected
event is logged instead, on a generic exception the events are dropped and
the action is logged as if it had produced none; always returns
should_predict_another_action of the executed action's name. -/
def run_action (t : Tracker) (action_name : String) (result : ActionResult) :
    Tracker × Bool :=
  match result with
  | ActionResult.rejection =>
    (t.update (Event.actionExecutionRejected action_name),
      should_predict_another_action action_name)
  | ActionResult.failure =>
    (log_action_on_tracker t action_name [],
      should_predict_another_action action_name)
  | ActionResult.success events =>
    (log_action_on_tracker t action_name events,
      should_predict_another_action action_name)

/-- The final state of MessageProcessor._predict_and_execute_next_action:
the tracker, the number of predicted actions, the final
should_predict_another_action flag and the executed action names. -/
structure LoopResult where
  tracker : Tracker
  numPredicted : Nat
  shouldPredictAnother : Bool
  executed : List String
  deriving Repr

/-- The while loop of MessageProcessor._predict_and_execute_next_action,
with the remaining prediction budget (max_number_of_predictions minus
num_predicted_actions) as fuel; predict abstracts
MessageProcessor.predict_next_action and run abstracts the tracker effect
of MessageProcessor._run_action on the chosen action (whose return value is
always should_predict_another_action of the action's name). -/
def action_loop (predict : Tracker → String) (run : Tracker → String → Tracker) :
    Nat → Tracker → Bool → Nat → List String → LoopResult
  | 0, t, spa, num, acts => ⟨t, num, spa, acts⟩
  | Nat.succ fuel, t, spa, num, acts =>
    if spa && should_handle_message t then
      let a := predict t
      action_loop predict run fuel (run t a)
        (should_predict_another_action a) (num + 1) (acts ++ [a])
    else ⟨t, num, spa, acts⟩

/-- MessageProcessor._predict_and_execute_next_action: run the action loop
from a fresh message (num_predicted_actions = 0,
should_predict_another_action = True). -/
def predict_and_execute (predict : Tracker → String)
    (run : Tracker → String → Tracker) (max_number_of_predictions : Nat)
    (t : Tracker) : LoopResult :=
  action_loop predict run max_number_of_predictions t true 0 []

/-- Number of invocations of the registered on_circuit_break callback after
the loop: one when is_action_limit_reached holds for the final state,
otherwise zero. -/
def circuit_breaker_invocations (max_number_of_predictions : Nat)
    (r : LoopResult) : Nat :=
  if is_action_limit_reached max_number_of_predictions r.numPredicted
      r.shouldPredictAnother then 1 else 0

/- ===== Session handling (processor.py / domain.py) ===== -/

/-- domain.py SessionConfig: expiration window in minutes and the slot
carry-over flag. -/
structure SessionConfig where
  session_expiration_time : Rat
  carry_over_slots : Bool
  deriving DecidableEq, Repr

/-- SessionConfig.are_sessions_enabled: a positive expiration time. -/
def SessionConfig.are_sessions_enabled (c : SessionConfig) : Bool :=
  decide (0 < c.session_expiration_time)

/-- MessageProcessor._has_session_expired: sessions enabled, a user event
exists, and more than session_expiration_time minutes elapsed since it. -/
def has_session_expired (cfg : SessionConfig) (now : Rat) (t : Tracker) : Bool :=
  if !cfg.are_sessions_enabled then false
  else
    match lastUserUtteredTimestamp t with
    | none => false
    | some ts => decide (cfg.session_expiration_time < (now - ts) / 60)

/-- The condition of MessageProcessor._update_tracker_session under which
the reserved session-start action is run: no applied events, or the session
has expired. -/
def session_start_is_run (cfg : SessionConfig) (now : Rat) (t : Tracker) : Bool :=
  t.appliedEvents.isEmpty || has_session_expired cfg now t

/-- The phases of MessageProcessor.handle_message in execution order. -/
inductive ProcStep where
  | sessionStart
  | logUserMessage
  | predictAndExecute
  deriving DecidableEq, Repr

/-- The control flow of MessageProcessor.handle_message: log_message calls
get_tracker_with_session_start, which runs _update_tracker_session (the
session-start action when its condition holds) before the user message is
logged, and only then is _predict_and_execute_next_action reached. -/
def handle_message_steps (cfg : SessionConfig) (now : Rat) (t : Tracker) :
    List ProcStep :=
  (if session_start_is_run cfg now t then [ProcStep.sessionStart] else []) ++
    [ProcStep.logUserMessage, ProcStep.predictAndExecute]

/- ===== Domain: entity filtering and action lookup (domain.py) ===== -/

/-- The normalized use_entities property of an intent: True (all entities)
or an explicit list (False/None/[] are normalized to the empty list by
_transform_intent_properties_for_internal_use). -/
inductive UseEntities where
  | all
  | only (names : List String)
  deriving DecidableEq, Repr

/-- Domain._transform_intent_properties_for_internal_use, the computation
of the used_entities property: the included entities (all of the domain's
entities, or the explicit list) minus the ignored ones, as a sorted
duplicate-free list. -/
def used_entities (use : UseEntities) (ignore : List String)
    (entities : List String) : List String :=
  let included : List String :=
    match use with
    | UseEntities.all => entities
    | UseEntities.only l => l
  insertionSort (fun a b => decide (a ≤ b))
    ((included.dedup).filter (fun e => !(decide (e ∈ ignore))))

/-- Domain._get_featurized_entities: the names of the message's entities
(each element is the "entity" attribute of one entity dict, none when the
key is missing) intersected with the intent's used_entities (when the
intent config lacks the property, dict.get defaults to the entity names
themselves and nothing is filtered). -/
def get_featurized_entities (msgEntities : List (Option String))
    (intentUsedEntities : Option (List String)) : List String :=
  let entity_names := (msgEntities.filterMap id).dedup
  let wanted_entities := intentUsedEntities.getD entity_names
  entity_names.filter (fun e => decide (e ∈ wanted_entities))

/-- The error raised by Domain._raise_action_not_found_exception. -/
inductive ProcError where
  | nameError (action_name : String)
  deriving DecidableEq, Repr

/-- Domain.index_for_action: the index of the action name in the domain's
action list; list.index raises ValueError when absent, which is turned into
a NameError by _raise_action_not_found_exception (despite the Optional[int]
return annotation, the function never returns None). -/
def index_for_action (action_names : List String) (action_name : String) :
    Except ProcError Nat :=
  match action_names.indexOf? action_name with
  | some i => Except.ok i
  | none => Except.error (ProcError.nameError action_name)

/-- The one-hot probability list built by
MessageProcessor._prob_array_for_action. -/
def oneHot (n idx : Nat) : List Rat :=
  (List.range n).map (fun j => if j = idx then 1 else 0)

/-- MessageProcessor._prob_array_for_action: the one-hot vector for the
action paired with no policy name.  The code's "if idx is not None" guard
is never false because index_for_action raises instead of returning None,
so the error propagates. -/
def prob_array_for_action (action_names : List String) (action_name : String) :
    Except ProcError (List Rat × Option String) :=
  (index_for_action action_names action_name).map
    (fun idx => (oneHot action_names.length idx, none))

/-- tracker.clear_followup_action(). -/
def clear_followup_action (t : Tracker) : Tracker :=
  { t with followup_action := none }

/-- MessageProcessor._get_next_action_probabilities: a queued follow-up
action is cleared and turned into its one-hot vector; the fallback branch
that would ignore an unknown follow-up is unreachable, because
_prob_array_for_action raises a NameError for an unknown name (and even its
nominal (None, None) return would be a truthy tuple), so the NameError
escapes; without a follow-up the policy ensemble decides. -/
def get_next_action_probabilities (action_names : List String)
    (ensemble : Tracker → List Rat × Option String) (t : Tracker) :
    Except ProcError ((List Rat × Option String) × Tracker) :=
  match t.followup_action with
  | some followup =>
    match prob_array_for_action action_names followup with
    | Except.ok r => Except.ok (r, clear_followup_action t)
    | Except.error e => Except.error e
  | none => Except.ok (ensemble t, t)

/- ===== Specification-side predicates ===== -/

/-- The per-field matching relation claimed by the spec, adjusted for the
truthiness tests the source actually performs: a sentinel-valued rule field
requires the live value to be absent or falsy, a truthy non-sentinel rule
field requires the live value to be present and equal, and a falsy rule
field (like an unmentioned one) is unconstrained. -/
def field_matches (convSub : SubState) (key : String) (v : PyVal) : Prop :=
  (v = PyVal.vstr SHOULD_NOT_BE_SET →
    optTruthy (SubState.get convSub key) = false) ∧
  (v ≠ PyVal.vstr SHOULD_NOT_BE_SET → v.truthy = true →
    SubState.get convSub key = some v)

/- ===== Concrete instances used by counterexamples and witnesses ===== -/

/-- A rule turn that requires the slot cuisine to be unset. -/
def rule_cuisine_unset : State :=
  [("slots", [("cuisine", PyVal.vstr SHOULD_NOT_BE_SET)])]

/-- A live turn in which the slot cuisine is present with the concrete
value "" (a falsy value). -/
def conv_cuisine_empty : State :=
  [("slots", [("cuisine", PyVal.vstr "")])]

/-- A live turn whose user sub-state carries two fields of equal serialized
width. -/
def state_hi_aa : State :=
  [("user", [("intent", PyVal.vstr "hi"), ("aaaaaa", PyVal.vstr "xx")])]

/-- A single-turn rule key constraining the intent field. -/
def key_intent_hi : List State := [[("user", [("intent", PyVal.vstr "hi")])]]

/-- A single-turn rule key constraining the other field; its serialized
form has exactly the same length as key_intent_hi's. -/
def key_aaaaaa_xx : List State := [[("user", [("aaaaaa", PyVal.vstr "xx")])]]

/-- The same rule lookup in two iteration orders of its key set. -/
def lookup_tie_ab : Lookup :=
  [(key_intent_hi, "utter_a"), (key_aaaaaa_xx, "utter_b")]

/-- The same rule lookup as lookup_tie_ab, keys iterated the other way. -/
def lookup_tie_ba : Lookup :=
  [(key_aaaaaa_xx, "utter_b"), (key_intent_hi, "utter_a")]

/-- A one-rule lookup with a unique (hence longest) matching key. -/
def lookup_single : Lookup := [(key_intent_hi, "utter_a")]

/-- A tracker with an unrejected active loop right after action_listen, and
a latest intent outside the default-intent mapping. -/
def tracker_loop_ex : Tracker :=
  ⟨[], false, some ⟨some "greet", 0⟩, some ACTION_LISTEN_NAME, some "my_form",
    false, none, []⟩

/-- A plain unpaused tracker used to drive the execution loop. -/
def tracker_plain : Tracker :=
  ⟨[], false, some ⟨some "greet", 0⟩, some ACTION_LISTEN_NAME, none, false,
    none, []⟩

/-- A paused tracker whose latest intent is not the restart intent. -/
def tracker_paused_ex : Tracker :=
  ⟨[], true, some ⟨some "greet", 0⟩, none, none, false, none, []⟩

/-- A turn state inside the loop my_form right after action_listen. -/
def state_in_form : State :=
  [(ACTIVE_LOOP, [(LOOP_NAME, PyVal.vstr "my_form")]),
   (PREVIOUS_ACTION, [(ACTION_NAME, PyVal.vstr ACTION_LISTEN_NAME)])]

/-- A loop-unhappy-path lookup demanding that the loop skip validation in
the state_in_form situation. -/
def unhappy_ex : Lookup := [([state_in_form], DO_NOT_VALIDATE_LOOP)]

/-- A tracker whose active loop my_form was rejected and whose featurized
history is the state_in_form situation. -/
def tracker_unhappy_ex : Tracker :=
  ⟨[], false, some ⟨some "greet", 0⟩, some "my_form", some "my_form", true,
    none, [state_in_form]⟩

/-- A tracker with a queued follow-up action that is not in the domain. -/
def tracker_ghost_followup : Tracker :=
  ⟨[], false, none, none, none, false, some "ghost_action", []⟩

/- ===== Helper lemmas ===== -/

theorem mem_insertionInsert (le : α → α → Bool) (x : α) (l : List α) (a : α) :
    a ∈ insertionInsert le x l ↔ a = x ∨ a ∈ l := by
  induction l with
  | nil => simp [insertionInsert]
  | cons y ys ih =>
    simp only [insertionInsert]
    by_cases h : le x y = true
    · simp [h]
    · have h2 : le x y = false := by simpa using h
      simp only [h2, Bool.false_eq_true, if_false, List.mem_cons, ih]
      tauto

theorem mem_insertionSort (le : α → α → Bool) (l : List α) (a : α) :
    a ∈ insertionSort le l ↔ a ∈ l := by
  induction l with
  | nil => simp [insertionSort]
  | cons x xs ih => simp [insertionSort, mem_insertionInsert, ih]

theorem fieldMismatch_eq_false_iff (convSub : SubState) (key : String)
    (v : PyVal) :
    fieldMismatch convSub key v = false ↔ field_matches convSub key v := by
  by_cases hv : v = PyVal.vstr SHOULD_NOT_BE_SET
  · subst hv
    simp [fieldMismatch, field_matches, PyVal.truthy, SHOULD_NOT_BE_SET]
  · by_cases ht : v.truthy = true
    · simp [fieldMismatch, field_matches, hv, ht]
    · have ht' : v.truthy = false := by simpa using ht
      simp [fieldMismatch, field_matches, hv, ht']

/-- C2 counterexample: the rule turn demanding that the slot cuisine be
unset does match a live turn in which cuisine is present with the concrete
(empty-string) value, because the source tests Python truthiness of the
live value rather than its presence. -/
theorem sentinel_matches_present_falsy_value :
    SubState.get ((State.get conv_cuisine_empty "slots").getD []) "cuisine" =
      some (PyVal.vstr "") ∧
    does_rule_match_state rule_cuisine_unset conv_cuisine_empty = true := by
  constructor
  · rfl
  · decide

/-- C2 (amended): a rule turn matches a live turn exactly when every field
mentioned in the rule turn matches: a field whose rule value is the
must-be-unset sentinel requires the live value to be absent or falsy (an
empty string, empty tuple or zero), a field with a truthy non-sentinel rule
value must be present in the live turn with an equal value, and fields with
falsy rule values, like fields not mentioned at all, are unconstrained. -/
theorem rule_turn_match_characterization (rule conv : State) :
    does_rule_match_state rule conv = true ↔
      ∀ p ∈ rule, ∀ kv ∈ p.2,
        field_matches ((State.get conv p.1).getD []) kv.1 kv.2 := by
  simp only [does_rule_match_state, List.all_eq_true, Bool.not_eq_true']
  constructor
  · intro h p hp kv hkv
    exact (fieldMismatch_eq_false_iff _ _ _).mp (h p hp kv hkv)
  · intro h p hp kv hkv
    exact (fieldMismatch_eq_false_iff _ _ _).mpr (h p hp kv hkv)

theorem pymax_fold_mem (f : α → Nat) (xs : List α) :
    ∀ a, xs.foldl (fun best y => if f best < f y then y else best) a ∈ a :: xs := by
  induction xs with
  | nil => intro a; simp
  | cons y ys ih =>
    intro a
    simp only [List.foldl_cons]
    by_cases h : f a < f y
    · simp only [if_pos h]
      exact List.mem_cons_of_mem a (ih y)
    · simp only [if_neg h]
      rcases List.mem_cons.mp (ih a) with h1 | h1
      · rw [h1]; exact List.mem_cons_self a _
      · exact List.mem_cons_of_mem a (List.mem_cons_of_mem y h1)

theorem pymax_fold_acc_le (f : α → Nat) (xs : List α) :
    ∀ a, f a ≤ f (xs.foldl (fun best y => if f best < f y then y else best) a) := by
  induction xs with
  | nil => intro a; simp
  | cons y ys ih =>
    intro a
    simp only [List.foldl_cons]
    by_cases h : f a < f y
    · simp only [if_pos h]
      exact le_of_lt (lt_of_lt_of_le h (ih y))
    · simp only [if_neg h]
      exact ih a

theorem pymax_fold_ge (f : α → Nat) (xs : List α) :
    ∀ a z, z ∈ a :: xs →
      f z ≤ f (xs.foldl (fun best y => if f best < f y then y else best) a) := by
  induction xs with
  | nil =>
    intro a z hz
    rcases List.mem_cons.mp hz with h1 | h1
    · exact h1 ▸ le_refl _
    · cases h1
  | cons y ys ih =>
    intro a z hz
    simp only [List.foldl_cons]
    have hstep : f z ≤ f (if f a < f y then y else a) ∨ z ∈ ys := by
      rcases List.mem_cons.mp hz with h1 | h1
      · left
        by_cases h : f a < f y
        · simp only [if_pos h]; exact h1 ▸ le_of_lt h
        · simp only [if_neg h]; exact h1 ▸ le_refl _
      · rcases List.mem_cons.mp h1 with h2 | h2
        · left
          by_cases h : f a < f y
          · simp only [if_pos h]; exact h2 ▸ le_refl _
          · simp only [if_neg h]; exact h2 ▸ Nat.le_of_not_lt h
        · right; exact h2
    rcases hstep with h1 | h1
    · exact le_trans h1 (pymax_fold_acc_le f ys _)
    · exact ih _ z (List.mem_cons_of_mem _ h1)

theorem pymaxBy_eq_of_unique (f : α → Nat) (l : List α) (b : α) (hb : b ∈ l)
    (huniq : ∀ p ∈ l, p ≠ b → f p < f b) : pymaxBy f l = some b := by
  cases l with
  | nil => cases hb
  | cons x xs =>
    simp only [pymaxBy, Option.some.injEq]
    have hmem := pymax_fold_mem f xs x
    have hge := pymax_fold_ge f xs x b hb
    by_cases hrb : xs.foldl (fun best y => if f best < f y then y else best) x = b
    · exact hrb
    · have := huniq _ hmem hrb
      omega

theorem get_possible_keys_aux_perm (sts : List State) :
    ∀ (i : Nat) (l1 l2 : Lookup), l1.Perm l2 →
      (get_possible_keys_aux i sts l1).Perm (get_possible_keys_aux i sts l2) := by
  induction sts with
  | nil => intro i l1 l2 h; simpa [get_possible_keys_aux] using h
  | cons st rest ih =>
    intro i l1 l2 h
    simp only [get_possible_keys_aux]
    exact ih _ _ _ (List.Perm.filter _ h)

theorem get_possible_keys_perm (rules1 rules2 : Lookup) (states : List State)
    (h : rules1.Perm rules2) :
    (get_possible_keys rules1 states).Perm (get_possible_keys rules2 states) :=
  get_possible_keys_aux_perm _ _ _ _ h

/-- C1 counterexample: the same lookup table, presented in two iteration
orders of its key set (the source takes the max over set(lookup.keys()),
whose iteration order is not the dict's insertion order), yields two
different selected actions for the same live history when two matching keys
tie at the maximal serialized length - so the tie is not broken by the
insertion order of the lookup structure and the selection is not determined
by the table and history alone. -/
theorem tie_break_not_by_insertion_order :
    lookup_tie_ab.Perm lookup_tie_ba ∧
    (find_action_from_rules lookup_tie_ab [] none [state_hi_aa]).1 =
      some "utter_a" ∧
    (find_action_from_rules lookup_tie_ba [] none [state_hi_aa]).1 =
      some "utter_b" := by
  refine ⟨by decide, by decide, by decide⟩

/-- C1 (amended): among the rule keys that match the live Turn-State
history, one whose serialized key is strictly longest wins: its action is
selected for every iteration order of the lookup's key set.  (When several
matching keys tie at the maximal length the winner depends on the
implementation-defined iteration order of the Python set of keys, not on
the lookup's insertion order.) -/
theorem longest_match_precedence (rules rules2 unhappy : Lookup)
    (states : List State) (best : List State × String)
    (hperm : rules.Perm rules2)
    (hmem : best ∈ get_possible_keys rules states)
    (huniq : ∀ p ∈ get_possible_keys rules states, p ≠ best →
      keyLen p.1 < keyLen best.1) :
    (find_action_from_rules rules2 unhappy none states).1 = some best.2 := by
  have hp := get_possible_keys_perm rules rules2 states hperm
  have hmem2 : best ∈ get_possible_keys rules2 states := hp.mem_iff.mp hmem
  have huniq2 : ∀ p ∈ get_possible_keys rules2 states, p ≠ best →
      keyLen p.1 < keyLen best.1 :=
    fun p hp2 => huniq p (hp.mem_iff.mpr hp2)
  have hmax := pymaxBy_eq_of_unique (fun p => keyLen p.1) _ best hmem2 huniq2
  simp [find_action_from_rules, hmax]

/-- Witness for longest_match_precedence: a one-rule lookup in which the
single matching key is trivially the strictly longest one. -/
theorem longest_match_precedence_witness :
    (find_action_from_rules lookup_single [] none [state_hi_aa]).1 =
      some "utter_a" :=
  longest_match_precedence lookup_single lookup_single [] [state_hi_aa]
    (key_intent_hi, "utter_a") (List.Perm.refl _) (by decide) (by decide)

/-- C3: for every rule lookup, a tracker with an active, unrejected loop to
which no default intent applies is predicted the loop action by the rule
policy whenever the last executed action is not the loop action, and the
listen action when the last executed action is the loop action. -/
theorem loop_happy_path_priority (rules unhappy : Lookup) (t : Tracker)
    (loopName : String)
    (hloop : t.active_loop_name = some loopName)
    (hrej : t.active_loop_rejected = false)
    (hdefault : find_action_from_default_actions t = none) :
    (t.latest_action_name ≠ some loopName →
      rule_policy_predicted_action rules unhappy t = some loopName) ∧
    (t.latest_action_name = some loopName →
      rule_policy_predicted_action rules unhappy t = some ACTION_LISTEN_NAME) := by
  constructor <;> intro h <;>
    simp [rule_policy_predicted_action, hdefault,
      find_action_from_loop_happy_path, hloop, hrej, h]

/-- Witness for loop_happy_path_priority at a concrete tracker whose
active loop my_form is unrejected and whose last action was listen. -/
theorem loop_happy_path_priority_witness :
    rule_policy_predicted_action [] [] tracker_loop_ex = some "my_form" :=
  (loop_happy_path_priority [] [] tracker_loop_ex "my_form" rfl rfl
    (by decide)).1 (by decide)

theorem action_loop_spa_false (predict : Tracker → String)
    (run : Tracker → String → Tracker) (fuel : Nat) (t : Tracker) (num : Nat)
    (acts : List String) :
    action_loop predict run fuel t false num acts = ⟨t, num, false, acts⟩ := by
  cases fuel <;> simp [action_loop]

theorem action_loop_num_le (predict : Tracker → String)
    (run : Tracker → String → Tracker) :
    ∀ (fuel : Nat) (t : Tracker) (spa : Bool) (num : Nat) (acts : List String),
      (action_loop predict run fuel t spa num acts).numPredicted ≤ num + fuel := by
  intro fuel
  induction fuel with
  | zero => intro t spa num acts; simp [action_loop]
  | succ n ih =>
    intro t spa num acts
    simp only [action_loop]
    by_cases h : (spa && should_handle_message t) = true
    · rw [if_pos h]
      have := ih (run t (predict t)) (should_predict_another_action (predict t))
        (num + 1) (acts ++ [predict t])
      omega
    · rw [if_neg h]
      dsimp only
      omega

theorem action_loop_executed_length (predict : Tracker → String)
    (run : Tracker → String → Tracker) :
    ∀ (fuel : Nat) (t : Tracker) (spa : Bool) (num : Nat) (acts : List String),
      (action_loop predict run fuel t spa num acts).executed.length + num =
        (action_loop predict run fuel t spa num acts).numPredicted +
          acts.length := by
  intro fuel
  induction fuel with
  | zero => intro t spa num acts; simp [action_loop]; omega
  | succ n ih =>
    intro t spa num acts
    simp only [action_loop]
    by_cases h : (spa && should_handle_message t) = true
    · rw [if_pos h]
      have := ih (run t (predict t)) (should_predict_another_action (predict t))
        (num + 1) (acts ++ [predict t])
      simp [List.length_append] at this
      omega
    · rw [if_neg h]
      dsimp only
      omega

theorem action_loop_all_continue (predict : Tracker → String)
    (run : Tracker → String → Tracker)
    (hpred : ∀ s, should_predict_another_action (predict s) = true)
    (hrun : ∀ s a, should_handle_message (run s a) = true) :
    ∀ (fuel : Nat) (t : Tracker) (num : Nat) (acts : List String),
      should_handle_message t = true →
      (action_loop predict run fuel t true num acts).numPredicted = num + fuel ∧
      (action_loop predict run fuel t true num acts).shouldPredictAnother =
        true := by
  intro fuel
  induction fuel with
  | zero => intro t num acts ht; simp [action_loop]
  | succ n ih =>
    intro t num acts ht
    have hstep :
        action_loop predict run (n + 1) t true num acts =
          action_loop predict run n (run t (predict t))
            (should_predict_another_action (predict t)) (num + 1)
            (acts ++ [predict t]) := by
      simp [action_loop, ht]
    rw [hstep, hpred t]
    have := ih (run t (predict t)) (num + 1) (acts ++ [predict t])
      (hrun t (predict t))
    exact ⟨by omega, this.2⟩

theorem getLast?_append_single (l : List α) (a : α) :
    (l ++ [a]).getLast? = some a := by
  induction l with
  | nil => rfl
  | cons x xs ih =>
    rw [List.cons_append]
    cases hxs : xs ++ [a] with
    | nil => exact absurd hxs (by simp)
    | cons y ys =>
      rw [List.getLast?_cons_cons]
      rw [← hxs]
      exact ih

theorem action_loop_halting_last (predict : Tracker → String)
    (run : Tracker → String → Tracker) :
    ∀ (fuel : Nat) (t : Tracker) (num : Nat) (acts : List String),
      (action_loop predict run fuel t true num acts).shouldPredictAnother =
        false →
      ∃ a, (action_loop predict run fuel t true num acts).executed.getLast? =
          some a ∧
        should_predict_another_action a = false := by
  intro fuel
  induction fuel with
  | zero => intro t num acts h; simp [action_loop] at h
  | succ n ih =>
    intro t num acts h
    by_cases hh : should_handle_message t = true
    · have hstep :
          action_loop predict run (n + 1) t true num acts =
            action_loop predict run n (run t (predict t))
              (should_predict_another_action (predict t)) (num + 1)
              (acts ++ [predict t]) := by
        simp [action_loop, hh]
      rw [hstep] at h ⊢
      by_cases hs : should_predict_another_action (predict t) = true
      · rw [hs] at h ⊢
        exact ih _ _ _ h
      · have hs2 : should_predict_another_action (predict t) = false := by
          simpa using hs
        rw [hs2, action_loop_spa_false] at h ⊢
        exact ⟨predict t, getLast?_append_single acts (predict t), hs2⟩
    · have hh2 : should_handle_message t = false := by simpa using hh
      simp [action_loop, hh2] at h

/-- C4: with max_number_of_predictions N at least 1 and a conversation that
stays handleable, if the prediction function never returns a halting
(listen or session-start) action then the loop executes exactly N actions
and the registered circuit-break callback is invoked exactly once; and
whenever the loop does reach a halting action within the bound (the final
should_predict_another_action flag is false), the halting action is the
last one executed, at most N actions were executed, and the callback is not
invoked. -/
theorem circuit_breaker_exact (N : Nat) (predict : Tracker → String)
    (run : Tracker → String → Tracker) (t : Tracker)
    (hN : 1 ≤ N)
    (ht : should_handle_message t = true)
    (hrun : ∀ s a, should_handle_message (run s a) = true) :
    ((∀ s, should_predict_another_action (predict s) = true) →
      (predict_and_execute predict run N t).numPredicted = N ∧
      (predict_and_execute predict run N t).executed.length = N ∧
      circuit_breaker_invocations N (predict_and_execute predict run N t) =
        1) ∧
    ((predict_and_execute predict run N t).shouldPredictAnother = false →
      circuit_breaker_invocations N (predict_and_execute predict run N t) =
        0 ∧
      (predict_and_execute predict run N t).numPredicted ≤ N ∧
      ∃ a, (predict_and_execute predict run N t).executed.getLast? = some a ∧
        should_predict_another_action a = false) := by
  constructor
  · intro hpred
    obtain ⟨h1, h2⟩ :=
      action_loop_all_continue predict run hpred hrun N t 0 [] ht
    have h3 := action_loop_executed_length predict run N t true 0 []
    refine ⟨?_, ?_, ?_⟩
    · show (action_loop predict run N t true 0 []).numPredicted = N
      omega
    · show (action_loop predict run N t true 0 []).executed.length = N
      simp at h3
      omega
    · simp [circuit_breaker_invocations, is_action_limit_reached,
        predict_and_execute, h1, h2]
  · intro hspa
    have hspa2 : (action_loop predict run N t true 0 []).shouldPredictAnother =
        false := hspa
    have h0 := action_loop_num_le predict run N t true 0 []
    obtain ⟨a, ha1, ha2⟩ :=
      action_loop_halting_last predict run N t 0 [] hspa2
    refine ⟨?_, ?_, ⟨a, ha1, ha2⟩⟩
    · simp [circuit_breaker_invocations, is_action_limit_reached, hspa]
    · show (action_loop predict run N t true 0 []).numPredicted ≤ N
      omega

/-- Witness for circuit_breaker_exact: one never-halting predicted action
with budget 1 trips the breaker exactly once. -/
theorem circuit_breaker_exact_witness :
    (predict_and_execute (fun _ => "utter_x") (fun _ _ => tracker_plain) 1
        tracker_plain).numPredicted = 1 ∧
    (predict_and_execute (fun _ => "utter_x") (fun _ _ => tracker_plain) 1
        tracker_plain).executed.length = 1 ∧
    circuit_breaker_invocations 1
      (predict_and_execute (fun _ => "utter_x") (fun _ _ => tracker_plain) 1
        tracker_plain) = 1 :=
  (circuit_breaker_exact 1 (fun _ => "utter_x") (fun _ _ => tracker_plain)
    tracker_plain (by decide) (by decide)
    (fun _ _ => show should_handle_message tracker_plain = true by decide)).1
    (fun _ =>
      show should_predict_another_action "utter_x" = true by decide)

/-- C9: an action whose external run raises a generic exception leaves the
loop in exactly the state of a successful run with zero events: the tracker
receives only the ActionExecuted event naming the action, and the
continue/halt decision is should_predict_another_action of the action
name. -/
theorem failed_action_like_empty_success (t : Tracker) (action_name : String) :
    run_action t action_name ActionResult.failure =
      run_action t action_name (ActionResult.success []) ∧
    (run_action t action_name ActionResult.failure).1.events =
      t.events ++ [Event.actionExecuted action_name] ∧
    (run_action t action_name ActionResult.failure).2 =
      should_predict_another_action action_name :=
  ⟨rfl, rfl, rfl⟩

/-- C10: the loop over a paused tracker whose latest intent is not the
restart intent terminates immediately: no action is predicted or executed
and the tracker is returned unchanged. -/
theorem paused_tracker_skips_loop (N : Nat) (predict : Tracker → String)
    (run : Tracker → String → Tracker) (t : Tracker)
    (hp : t.paused = true)
    (hi : latest_message_intent_name t ≠ some USER_INTENT_RESTART) :
    predict_and_execute predict run N t = ⟨t, 0, true, []⟩ := by
  have hh : should_handle_message t = false := by
    simp [should_handle_message, hp, hi]
  unfold predict_and_execute
  cases N with
  | zero => simp [action_loop]
  | succ n => simp [action_loop, hh]

/-- Witness for paused_tracker_skips_loop at a concrete paused tracker with
a greet intent. -/
theorem paused_tracker_skips_loop_witness :
    predict_and_execute (fun _ => "utter_x") (fun s _ => s) 10
      tracker_paused_ex = ⟨tracker_paused_ex, 0, true, []⟩ :=
  paused_tracker_skips_loop 10 (fun _ => "utter_x") (fun s _ => s)
    tracker_paused_ex rfl (by decide)

theorem session_start_is_run_iff (cfg : SessionConfig) (now : Rat)
    (t : Tracker) :
    session_start_is_run cfg now t = true ↔
      t.appliedEvents = [] ∨
        (cfg.are_sessions_enabled = true ∧
          ∃ ts, lastUserUtteredTimestamp t = some ts ∧
            cfg.session_expiration_time < (now - ts) / 60) := by
  unfold session_start_is_run has_session_expired
  by_cases he : cfg.are_sessions_enabled = true
  · cases hts : lastUserUtteredTimestamp t with
    | none => simp [he, hts, List.isEmpty_iff]
    | some ts => simp [he, hts, List.isEmpty_iff]
  · have he2 : cfg.are_sessions_enabled = false := by simpa using he
    simp [he2, List.isEmpty_iff]

/-- C5: while handling a message, the reserved session-start action is run,
before the user message is logged and before any prediction, exactly when
the tracker has no events since the last restart or when sessions are
enabled and more than session_expiration_time minutes have elapsed since
the last user event; and whenever it is run it is the first step. -/
theorem session_start_before_prediction (cfg : SessionConfig) (now : Rat)
    (t : Tracker) :
    (ProcStep.sessionStart ∈ handle_message_steps cfg now t ↔
      t.appliedEvents = [] ∨
        (cfg.are_sessions_enabled = true ∧
          ∃ ts, lastUserUtteredTimestamp t = some ts ∧
            cfg.session_expiration_time < (now - ts) / 60)) ∧
    (ProcStep.sessionStart ∈ handle_message_steps cfg now t →
      (handle_message_steps cfg now t).head? = some ProcStep.sessionStart) := by
  have hmem : ProcStep.sessionStart ∈ handle_message_steps cfg now t ↔
      session_start_is_run cfg now t = true := by
    unfold handle_message_steps
    by_cases h : session_start_is_run cfg now t = true
    · simp [h]
    · have h2 : session_start_is_run cfg now t = false := by simpa using h
      simp [h2]
  constructor
  · rw [hmem]
    exact session_start_is_run_iff cfg now t
  · intro hin
    have h := hmem.mp hin
    unfold handle_message_steps
    simp [h]

/-- C6 counterexample: predicting with the rule policy on a tracker whose
rejected active loop matches a do-not-validate unhappy-path rule appends a
FormValidation event to the tracker's event log, so prediction is not free
of tracker effects. -/
theorem prediction_appends_form_validation :
    (rule_policy_predict_with_tracker [] unhappy_ex tracker_unhappy_ex).2.events
        = tracker_unhappy_ex.events ++ [Event.formValidation false] ∧
    (rule_policy_predict_with_tracker [] unhappy_ex tracker_unhappy_ex).2.events
        ≠ tracker_unhappy_ex.events := by
  constructor
  · decide
  · decide

/-- C6 (amended): the rule policy's prediction leaves the tracker's event
log unchanged except that it may append a single FormValidation(False)
event when an active loop's unhappy-path condition demands skipping
validation. -/
theorem prediction_event_log_effect (rules unhappy : Lookup) (t : Tracker) :
    (rule_policy_predict_with_tracker rules unhappy t).2.events = t.events ∨
    (rule_policy_predict_with_tracker rules unhappy t).2.events =
      t.events ++ [Event.formValidation false] := by
  unfold rule_policy_predict_with_tracker
  cases hda : find_action_from_default_actions t with
  | some a => left; rfl
  | none =>
    cases hlp : find_action_from_loop_happy_path t with
    | some a => left; rfl
    | none =>
      by_cases h :
          (find_action_from_rules rules unhappy t.active_loop_name t.states).2
            = true
      · right
        simp [h, Tracker.update]
      · left
        have h2 :
            (find_action_from_rules rules unhappy t.active_loop_name
              t.states).2 = false := by simpa using h
        simp [h2]

/-- C7: computing the next action probabilities for a tracker whose queued
follow-up action is not in the domain's action list raises (the embedded
NameError of Domain.index_for_action escapes) instead of ignoring the
follow-up and falling back to ensemble prediction: the recovery branch in
the source is unreachable. -/
theorem unknown_followup_action_raises :
    get_next_action_probabilities [ACTION_LISTEN_NAME, "utter_greet"]
        (fun _ => ([], none)) tracker_ghost_followup =
      Except.error (ProcError.nameError "ghost_action") := by
  rfl

/-- C8: an entity is retained in the user sub-state exactly when it occurs
among the message's entities and is allowed for the intent: included
explicitly or via the include-all setting, and not explicitly excluded
(exclusion wins over inclusion). -/
theorem entity_filtering_intent_aware (use : UseEntities)
    (ignore entities : List String) (msgEntities : List (Option String))
    (e : String) :
    e ∈ get_featurized_entities msgEntities
        (some (used_entities use ignore entities)) ↔
      some e ∈ msgEntities ∧
        (match use with
         | UseEntities.all => e ∈ entities
         | UseEntities.only l => e ∈ l) ∧
        e ∉ ignore := by
  cases use <;>
    simp [get_featurized_entities, used_entities, mem_insertionSort,
      List.mem_filter, List.mem_dedup, List.mem_filterMap]

end Rasa
